import Mathlib

/-!
# redshiftgui: the main program (src/redshiftgui.c)

A shallow embedding of `_parse_options`, `_do_oneshot`, `_do_console` and
`main`.  Every call that leaves the translation unit is either answered by
an oracle (`Env` for the argument parser, the clock, the solar and gamma
modules; `OptionsApi` for the options module, which owns a state of type
`σ`) or recorded as an `Event` of the run, in program order.  The C type
`double` is the abstract type `R`, the gamma triple `gamma_s` is the
abstract type `G`: the program only passes such values along.
-/

namespace Redshift

/-! ## Constants of redshiftgui.c and common.h -/

/-- Main program return code for success. -/
def RET_MAIN_OK : Int := 0
/-- Main program return code for failure. -/
def RET_MAIN_ERR : Int := -1
/-- Function return code for failure. -/
def RET_FUN_FAILED : Int := 0
/-- Function return code for success. -/
def RET_FUN_SUCCESS : Int := 1

/-- Logging levels: LOGERR (1), LOGWARN (2), LOGINFO (3) and LOGVERBOSE (4)
are the macros of common.h; LOGERROR is the name used on the no-toolkit
path of main, which common.h does not define. -/
inductive LogLevel
  | LOGERR
  | LOGWARN
  | LOGINFO
  | LOGVERBOSE
  | LOGERROR
  deriving DecidableEq, Repr

open LogLevel

/-- The handle type of the gamma module; main tests it against zero. -/
abbrev gamma_method_t := Int

/-- The three preprocessor variants of the signal code (lines 154-205). -/
inductive Platform
  | win32
  | sys_signal
  | other
  deriving DecidableEq, Repr

/-- Compile-time configuration: the platform, and whether ENABLE_IUP or
ENABLE_GTK is defined (both GUI branches of main are empty). -/
structure Build where
  platform : Platform
  gui_toolkit : Bool
  deriving DecidableEq, Repr

/-! ## Events of a run -/

/-- The observable calls of a run, with their arguments and results. -/
inductive Event (G : Type)
  | log_init (ok : Bool)
  | log_end
  | printf (s : String)
  | LOG (lvl : LogLevel) (fmt : String)
  | args_addarg (short long : String)
  | args_print
  | args_free
  | opt_call (name : String) (ret : Int)
  | sig_register
  | read_exiting (v : Bool)
  | usleep (usec : Nat)
  | Sleep (msec : Nat)
  | systemtime_get_time (ret : Int)
  | gamma_init_method (screen crtc : Int) (method ret : gamma_method_t)
  | gamma_state_get_temperature (method : gamma_method_t) (ret : Int)
  | gamma_state_set_temperature (method : gamma_method_t) (temp : Int) (gamma : G) (ret : Int)
  | gamma_state_free (method : gamma_method_t)
  deriving DecidableEq, Repr

namespace Event

variable {G : Type}

/-- A call of gamma_state_set_temperature. -/
def isSet : Event G → Bool
  | gamma_state_set_temperature _ _ _ _ => true
  | _ => false

/-- A call of gamma_state_get_temperature. -/
def isGet : Event G → Bool
  | gamma_state_get_temperature _ _ => true
  | _ => false

/-- A call of gamma_state_free. -/
def isFree : Event G → Bool
  | gamma_state_free _ => true
  | _ => false

/-- A call of gamma_init_method. -/
def isInit : Event G → Bool
  | gamma_init_method _ _ _ _ => true
  | _ => false

/-- Any operation of the gamma backend. -/
def isBackend (e : Event G) : Bool :=
  e.isInit || e.isGet || e.isSet || e.isFree

/-- A read of the wall clock. -/
def isTime : Event G → Bool
  | systemtime_get_time _ => true
  | _ => false

/-- An event that only the console loop produces: signal registration, a
poll of the exiting flag, or a sleep. -/
def isLoop : Event G → Bool
  | sig_register => true
  | read_exiting _ => true
  | usleep _ => true
  | Sleep _ => true
  | _ => false

/-- A message to the logging sink. -/
def isLog : Event G → Bool
  | LOG _ _ => true
  | _ => false

/-- An event that the option parsing can produce. -/
def isParse : Event G → Bool
  | LOG _ _ => true
  | printf _ => true
  | args_addarg _ _ => true
  | args_print => true
  | opt_call _ _ => true
  | _ => false

/-- The handle, Kelvin and gamma arguments of a gamma_state_set_temperature
call. -/
def setArgs : Event G → Option (gamma_method_t × Int × G)
  | gamma_state_set_temperature m t g _ => some (m, t, g)
  | _ => none

end Event

/-! ## Collaborators -/

/-- The options module (options.h): setters return a status and the new
state, getters read the state. -/
structure OptionsApi (R G σ : Type) where
  opt_set_defaults : σ → σ
  opt_set_crtc : Int → σ → Int × σ
  opt_parse_gamma : String → σ → Int × σ
  opt_parse_location : String → σ → Int × σ
  opt_set_nogui : Int → σ → Int × σ
  opt_parse_method : String → σ → Int × σ
  opt_set_oneshot : Int → σ → Int × σ
  opt_set_transpeed : Int → σ → Int × σ
  opt_set_screen : Int → σ → Int × σ
  opt_parse_temperatures : String → σ → Int × σ
  opt_set_verbose : Int → σ → Int × σ
  opt_set_method : gamma_method_t → σ → σ
  opt_get_method : σ → gamma_method_t
  opt_get_screen : σ → Int
  opt_get_crtc : σ → Int
  opt_get_oneshot : σ → Int
  opt_get_nogui : σ → Int
  opt_get_lat : σ → R
  opt_get_lon : σ → R
  opt_get_temp_day : σ → Int
  opt_get_temp_night : σ → Int
  opt_get_gamma : σ → G

/-- Answers of everything else main talks to: logger, argument parser,
libc, clock, solar and gamma modules, the exiting flag as seen by the k-th
poll of the loop, and the indeterminate value of the local `ret` when a GUI
toolkit is compiled in. -/
structure Env (R G : Type) where
  log_init_ok : Bool
  args_parse_ok : Bool
  opt_get_config_file : Option String
  args_parsefile_ok : String → Bool
  args_check : String → Bool
  args_getnamed : String → Option String
  args_unknown : Bool
  atoi : String → Int
  systemtime_get_time : Int × R
  solar_elevation : R → R → R → R
  gamma_calc_temp : R → Int → Int → Int
  gamma_init_method : Int → Int → gamma_method_t → gamma_method_t
  gamma_state_get_temperature : gamma_method_t → Int
  gamma_state_set_temperature : gamma_method_t → Int → G → Int
  exiting : Nat → Bool
  ret_indeterminate : Int

variable {R G σ : Type}

/-! ## _parse_options (lines 47-120) -/

/-- The locals of the else-branch of _parse_options while the option
setters run: the options state, `err`, and the events so far. -/
structure ParseState (G σ : Type) where
  opts : σ
  err : Int
  trace : List (Event G)

/-- One statement `if( (val=args_getnamed(name)) ) err = (!f(val)) || err;`. -/
def opt_step (name : String) (val : Option String) (f : String → σ → Int × σ)
    (st : ParseState G σ) : ParseState G σ :=
  match val with
  | none => st
  | some v =>
    let r := f v st.opts
    { opts := r.2
      err := if r.1 = 0 ∨ st.err ≠ 0 then 1 else 0
      trace := st.trace ++ [Event.opt_call name r.1] }

/-- The eleven registrations at the top of _parse_options. -/
def addarg_events : List (Event G) :=
  [ .args_addarg "c" "crt", .args_addarg "g" "gamma", .args_addarg "l" "latlon",
    .args_addarg "m" "method", .args_addarg "n" "no-gui", .args_addarg "o" "oneshot",
    .args_addarg "r" "speed", .args_addarg "s" "screen", .args_addarg "t" "temps",
    .args_addarg "v" "verbose", .args_addarg "h" "help" ]

/-- The ten option statements of lines 91-110, in source order. -/
def apply_options (api : OptionsApi R G σ) (env : Env R G)
    (st : ParseState G σ) : ParseState G σ :=
  let st := opt_step "c" (env.args_getnamed "c") (fun v => api.opt_set_crtc (env.atoi v)) st
  let st := opt_step "g" (env.args_getnamed "g") api.opt_parse_gamma st
  let st := opt_step "l" (env.args_getnamed "l") api.opt_parse_location st
  let st := opt_step "n" (env.args_getnamed "n") (fun _ => api.opt_set_nogui 1) st
  let st := opt_step "m" (env.args_getnamed "m") api.opt_parse_method st
  let st := opt_step "o" (env.args_getnamed "o") (fun _ => api.opt_set_oneshot 1) st
  let st := opt_step "r" (env.args_getnamed "r") (fun v => api.opt_set_transpeed (env.atoi v)) st
  let st := opt_step "s" (env.args_getnamed "s") (fun v => api.opt_set_screen (env.atoi v)) st
  let st := opt_step "t" (env.args_getnamed "t") api.opt_parse_temperatures st
  let st := opt_step "v" (env.args_getnamed "v") (fun v => api.opt_set_verbose (env.atoi v)) st
  st

/-- Events of the config-file statement (lines 80-82): a warning when a
config file is found and does not parse. -/
def config_events (env : Env R G) : List (Event G) :=
  match env.opt_get_config_file with
  | none => []
  | some f => if env.args_parsefile_ok f then [] else [.LOG LOGWARN "Invalid/empty config: %s"]

/-- Function _parse_options: status, options state afterwards, events. -/
def _parse_options (api : OptionsApi R G σ) (env : Env R G) (s0 : σ) :
    Int × σ × List (Event G) :=
  if !env.args_parse_ok then
    (RET_FUN_FAILED, s0, addarg_events ++
      [.LOG LOGERR "Error occurred parsing options,Check your config file or command line."])
  else
    let t1 := addarg_events ++ config_events env
    if env.args_check "h" then
      (RET_FUN_FAILED, s0, t1 ++ [.printf "Redshift GUI help:\n", .args_print])
    else
      let st := apply_options api env
        { opts := api.opt_set_defaults s0, err := 0, trace := t1 }
      if st.err ≠ 0 then
        (RET_FUN_FAILED, st.opts, st.trace)
      else if env.args_unknown then
        (RET_FUN_FAILED, st.opts, st.trace ++ [.printf "Unknown arguments encountered.\n"])
      else
        (RET_FUN_SUCCESS, st.opts, st.trace)

/-! ## _do_oneshot (lines 123-152) -/

/-- The value of the local `temp` of _do_oneshot (lines 134-141). -/
def oneshot_temp (api : OptionsApi R G σ) (env : Env R G) (s : σ) : Int :=
  env.gamma_calc_temp
    (env.solar_elevation env.systemtime_get_time.2 (api.opt_get_lat s) (api.opt_get_lon s))
    (api.opt_get_temp_day s) (api.opt_get_temp_night s)

/-- Function _do_oneshot: status and events. -/
def _do_oneshot (api : OptionsApi R G σ) (env : Env R G) (s : σ) : Int × List (Event G) :=
  let method := api.opt_get_method s
  let rc := env.systemtime_get_time.1
  if rc ≠ 0 then
    (RET_FUN_FAILED, [.systemtime_get_time rc, .LOG LOGERR "Unable to read system time."])
  else
    let temp := oneshot_temp api env s
    let t := [ .systemtime_get_time rc, .LOG LOGINFO "Solar elevation: %f",
               .LOG LOGINFO "Color temperature: %uK",
               .gamma_state_get_temperature method (env.gamma_state_get_temperature method) ]
    let r := env.gamma_state_set_temperature method temp (api.opt_get_gamma s)
    let t := t ++ [.gamma_state_set_temperature method temp (api.opt_get_gamma s) r]
    if r = 0 then
      (RET_FUN_FAILED, t ++ [.LOG LOGERR "Temperature adjustment failed."])
    else
      (RET_FUN_SUCCESS, t)

/-! ## _do_console (lines 154-218) -/

/-- The sleep of one loop iteration (lines 211-215). -/
def sleep_event (b : Build) : Event G :=
  match b.platform with
  | .win32 => .Sleep 5000
  | _ => .usleep 5000000

/-- The call sig_register(); it is an empty token on the third platform. -/
def sig_register_events (b : Build) : List (Event G) :=
  match b.platform with
  | .other => []
  | _ => [.sig_register]

/-- The loop `while(!exiting) sleep;` from its i-th poll on, with fuel:
`none` when the fuel runs out before the flag is seen set. -/
def console_loop (b : Build) (exiting : Nat → Bool) : Nat → Nat → Option (List (Event G))
  | 0, _ => none
  | fuel + 1, i =>
    if exiting i then some [.read_exiting true]
    else (console_loop b exiting fuel (i + 1)).map
      (fun t => .read_exiting false :: sleep_event b :: t)

/-- Function _do_console: status and events, `none` without enough fuel. -/
def _do_console (b : Build) (env : Env R G) (fuel : Nat) : Option (Int × List (Event G)) :=
  (console_loop b env.exiting fuel 0).map
    (fun t => (RET_FUN_SUCCESS, sig_register_events b ++ t))

/-! ## main (lines 220-272) -/

/-- The handle that main gets from gamma_init_method (lines 234-235). -/
def init_handle (api : OptionsApi R G σ) (env : Env R G) (s0 : σ) : gamma_method_t :=
  let s1 := (_parse_options api env s0).2.1
  env.gamma_init_method (api.opt_get_screen s1) (api.opt_get_crtc s1) (api.opt_get_method s1)

/-- The options state after `opt_set_method(method)` (line 241). -/
def session_opts (api : OptionsApi R G σ) (env : Env R G) (s0 : σ) : σ :=
  api.opt_set_method (init_handle api env s0) (_parse_options api env s0).2.1

/-- The mode selection of main (lines 243-262): the value of `ret` and the
events of the selected mode. -/
def run_mode (b : Build) (api : OptionsApi R G σ) (env : Env R G) (s : σ) (fuel : Nat) :
    Option (Int × List (Event G)) :=
  if api.opt_get_oneshot s ≠ 0 then
    let r := _do_oneshot api env s
    some (r.1, .LOG LOGINFO "Doing one-shot adjustment." :: r.2)
  else if api.opt_get_nogui s ≠ 0 then
    (_do_console b env fuel).map
      (fun r => (r.1, .LOG LOGINFO "Starting in console mode." :: r.2))
  else if b.gui_toolkit then
    some (env.ret_indeterminate, [.LOG LOGINFO "Starting in GUI mode."])
  else
    some (RET_FUN_FAILED, [.LOG LOGINFO "Starting in GUI mode.",
      .LOG LOGERROR "No GUI toolkit compiled in."])

/-- Function main: exit status and events, `none` without enough fuel. -/
def main (b : Build) (api : OptionsApi R G σ) (env : Env R G) (s0 : σ) (fuel : Nat) :
    Option (Int × List (Event G)) :=
  if !env.log_init_ok then
    some (RET_MAIN_ERR, [.log_init false, .printf "Could not initialize logger.\n"])
  else
    let p := _parse_options api env s0
    if p.1 = 0 then
      some (RET_MAIN_ERR, .log_init true :: p.2.2 ++ [.args_free, .log_end])
    else
      let s1 := p.2.1
      let method := env.gamma_init_method (api.opt_get_screen s1) (api.opt_get_crtc s1)
        (api.opt_get_method s1)
      let t := .log_init true :: p.2.2 ++
        [.gamma_init_method (api.opt_get_screen s1) (api.opt_get_crtc s1)
          (api.opt_get_method s1) method]
      if method = 0 then
        some (RET_MAIN_ERR, t ++ [.args_free, .log_end])
      else
        let s2 := api.opt_set_method method s1
        (run_mode b api env s2 fuel).map (fun r =>
          (if r.1 ≠ 0 then RET_MAIN_OK else RET_MAIN_ERR,
           t ++ r.2 ++ [.gamma_state_free (api.opt_get_method s2), .args_free, .log_end]))

/-- The events of main up to and including the gamma_init_method call,
when the logger and the option parsing succeed (lines 224-235). -/
def startup_events (api : OptionsApi R G σ) (env : Env R G) (s0 : σ) : List (Event G) :=
  let s1 := (_parse_options api env s0).2.1
  .log_init true :: (_parse_options api env s0).2.2 ++
    [.gamma_init_method (api.opt_get_screen s1) (api.opt_get_crtc s1)
      (api.opt_get_method s1) (init_handle api env s0)]

/-! ## Events of idle iterations -/

/-- The events of n loop iterations that saw the exiting flag clear. -/
def idle_events (b : Build) : Nat → List (Event G)
  | 0 => []
  | n + 1 => .read_exiting false :: sleep_event b :: idle_events b n

/-! ## A concrete instance, for evaluation -/

/-- A plain record of option values, standing in for the state of the
options module. -/
structure SampleOpts where
  method : Int
  screen : Int
  crtc : Int
  oneshot : Int
  nogui : Int
  lat : Int
  lon : Int
  temp_day : Int
  temp_night : Int
  gamma : Nat
  transpeed : Int
  verbose : Int
  deriving DecidableEq, Repr

/-- An options module over SampleOpts: a store whose integer setters
reject negative arguments; doubles are stood in for by integers. -/
def sampleApi : OptionsApi Int Nat SampleOpts where
  opt_set_defaults := fun _ =>
    { method := 0, screen := 0, crtc := 0, oneshot := 0, nogui := 0, lat := 45, lon := 0,
      temp_day := 6500, temp_night := 3400, gamma := 1, transpeed := 100, verbose := 0 }
  opt_set_crtc := fun v s => if v < 0 then (0, s) else (1, { s with crtc := v })
  opt_parse_gamma := fun v s => (1, { s with gamma := v.length })
  opt_parse_location := fun _ s => (1, s)
  opt_set_nogui := fun v s => (1, { s with nogui := v })
  opt_parse_method := fun _ s => (1, s)
  opt_set_oneshot := fun v s => (1, { s with oneshot := v })
  opt_set_transpeed := fun v s => if v < 0 then (0, s) else (1, { s with transpeed := v })
  opt_set_screen := fun v s => if v < 0 then (0, s) else (1, { s with screen := v })
  opt_parse_temperatures := fun _ s => (1, s)
  opt_set_verbose := fun v s => if v < 0 then (0, s) else (1, { s with verbose := v })
  opt_set_method := fun m s => { s with method := m }
  opt_get_method := fun s => s.method
  opt_get_screen := fun s => s.screen
  opt_get_crtc := fun s => s.crtc
  opt_get_oneshot := fun s => s.oneshot
  opt_get_nogui := fun s => s.nogui
  opt_get_lat := fun s => s.lat
  opt_get_lon := fun s => s.lon
  opt_get_temp_day := fun s => s.temp_day
  opt_get_temp_night := fun s => s.temp_night
  opt_get_gamma := fun s => s.gamma

/-- The options state before main runs. -/
def sampleOpts : SampleOpts :=
  { method := 0, screen := 0, crtc := 0, oneshot := 0, nogui := 0, lat := 0, lon := 0,
    temp_day := 0, temp_night := 0, gamma := 0, transpeed := 0, verbose := 0 }

/-- A run with the command line `-o`: everything succeeds, the sun is up
(elevation 40, target the day temperature), the backend hands out handle 2. -/
def oneshotEnv : Env Int Nat where
  log_init_ok := true
  args_parse_ok := true
  opt_get_config_file := none
  args_parsefile_ok := fun _ => true
  args_check := fun _ => false
  args_getnamed := fun n => if n = "o" then some "" else none
  args_unknown := false
  atoi := fun v => if v = "-1" then -1 else if v = "7" then 7 else 0
  systemtime_get_time := (0, 1276214400)
  solar_elevation := fun _ _ _ => 40
  gamma_calc_temp := fun e d n => if 3 ≤ e then d else n
  gamma_init_method := fun _ _ _ => 2
  gamma_state_get_temperature := fun _ => 6500
  gamma_state_set_temperature := fun _ _ _ => 1
  exiting := fun k => decide (2 ≤ k)
  ret_indeterminate := 0

/-- A run with the command line `-n`: the exiting flag is seen clear by
the first two polls of the loop and set by the third. -/
def consoleEnv : Env Int Nat :=
  { oneshotEnv with args_getnamed := fun n => if n = "n" then some "" else none }

/-- A run with the command line `-o` in which no backend is available. -/
def noBackendEnv : Env Int Nat :=
  { oneshotEnv with gamma_init_method := fun _ _ _ => 0 }

/-- A run with the command line `-c -1 -v 7 -o`: the crtc is rejected,
the later options are accepted. -/
def rejectEnv : Env Int Nat :=
  { oneshotEnv with
    args_getnamed := fun n =>
      if n = "c" then some "-1" else if n = "v" then some "7"
      else if n = "o" then some "" else none }

/-- The build on a platform with sys/signal.h and no GUI toolkit. -/
def sampleBuild : Build := { platform := .sys_signal, gui_toolkit := false }

/-! ## Lemmas on events and on the option parsing -/

theorem isParse_excludes (e : Event G) (h : e.isParse = true) :
    e.isInit = false ∧ e.isGet = false ∧ e.isSet = false ∧ e.isFree = false ∧
      e.isTime = false ∧ e.isLoop = false := by
  cases e <;> simp_all [Event.isParse, Event.isInit, Event.isGet, Event.isSet,
    Event.isFree, Event.isTime, Event.isLoop]

theorem addarg_events_isParse : ∀ e ∈ (addarg_events : List (Event G)), e.isParse = true := by
  simp [addarg_events, Event.isParse]

theorem config_events_isParse (env : Env R G) :
    ∀ e ∈ config_events env, e.isParse = true := by
  unfold config_events
  split
  · simp
  · split <;> simp [Event.isParse]

theorem opt_step_isParse (name : String) (val : Option String) (f : String → σ → Int × σ)
    (st : ParseState G σ) (h : ∀ e ∈ st.trace, e.isParse = true) :
    ∀ e ∈ (opt_step name val f st).trace, e.isParse = true := by
  cases val with
  | none => simpa [opt_step] using h
  | some v =>
    intro e he
    simp only [opt_step, List.mem_append, List.mem_singleton] at he
    rcases he with he | he
    · exact h e he
    · subst he; rfl

theorem apply_options_isParse (api : OptionsApi R G σ) (env : Env R G)
    (st : ParseState G σ) (h : ∀ e ∈ st.trace, e.isParse = true) :
    ∀ e ∈ (apply_options api env st).trace, e.isParse = true := by
  unfold apply_options
  repeat apply opt_step_isParse
  exact h

theorem parse_events_isParse (api : OptionsApi R G σ) (env : Env R G) (s0 : σ) :
    ∀ e ∈ (_parse_options api env s0).2.2, e.isParse = true := by
  have h1 : ∀ e ∈ (addarg_events ++ config_events env : List (Event G)), e.isParse = true := by
    intro e he
    rcases List.mem_append.1 he with he | he
    · exact addarg_events_isParse e he
    · exact config_events_isParse env e he
  have h2 := apply_options_isParse api env
    { opts := api.opt_set_defaults s0, err := 0, trace := addarg_events ++ config_events env } h1
  simp only [_parse_options]
  split_ifs
  · intro e he
    rcases List.mem_append.1 he with he | he
    · exact addarg_events_isParse e he
    · simp only [List.mem_singleton] at he; subst he; rfl
  · intro e he
    rcases List.mem_append.1 he with he | he
    · exact h1 e he
    · simp only [List.mem_cons, List.mem_singleton, List.not_mem_nil, or_false] at he
      rcases he with he | he <;> subst he <;> rfl
  · exact h2
  · intro e he
    rcases List.mem_append.1 he with he | he
    · exact h2 e he
    · simp only [List.mem_singleton] at he; subst he; rfl
  · exact h2

/-- Once a setter has returned 0, `err` is non-zero, and it stays so. -/
theorem opt_step_err (name : String) (val : Option String) (f : String → σ → Int × σ)
    (st : ParseState G σ)
    (h : (∃ n, Event.opt_call n 0 ∈ st.trace) → st.err ≠ 0) :
    (∃ n, Event.opt_call n 0 ∈ (opt_step name val f st).trace) →
      (opt_step name val f st).err ≠ 0 := by
  cases val with
  | none => simpa [opt_step] using h
  | some v =>
    rintro ⟨n, hn⟩
    simp only [opt_step, List.mem_append, List.mem_singleton] at hn ⊢
    rcases hn with hn | hn
    · have := h ⟨n, hn⟩
      simp [this]
    · have h0 : (f v st.opts).1 = 0 := by
        injection hn with _ h2
        exact h2.symm
      simp [h0]

theorem apply_options_err (api : OptionsApi R G σ) (env : Env R G)
    (st : ParseState G σ)
    (h : (∃ n, Event.opt_call n 0 ∈ st.trace) → st.err ≠ 0) :
    (∃ n, Event.opt_call n 0 ∈ (apply_options api env st).trace) →
      (apply_options api env st).err ≠ 0 := by
  unfold apply_options
  repeat apply opt_step_err
  exact h

theorem no_opt_call_before_setters (env : Env R G) (n : String) (r : Int) :
    Event.opt_call n r ∉ (addarg_events ++ config_events env : List (Event G)) := by
  intro h
  rcases List.mem_append.1 h with h | h
  · simp [addarg_events] at h
  · unfold config_events at h
    split at h
    · simp at h
    · split at h <;> simp at h

/-! ## Lemmas on lists of events -/

theorem filter_nil_of_all_false (p : Event G → Bool) (l : List (Event G))
    (h : ∀ e ∈ l, p e = false) : l.filter p = [] := by
  induction l with
  | nil => rfl
  | cons a t ih =>
    have ha : p a = false := h a (List.mem_cons_self a t)
    have ht : ∀ e ∈ t, p e = false := fun e he => h e (List.mem_cons_of_mem a he)
    simp [List.filter, ha, ih ht]

/-- An element that occurs once splits a list in one way only. -/
theorem split_unique (x : Event G) :
    ∀ (l1 l2 pre post : List (Event G)), x ∉ l1 → x ∉ l2 →
      l1 ++ x :: l2 = pre ++ x :: post → pre = l1 ∧ post = l2 := by
  intro l1
  induction l1 with
  | nil =>
    intro l2 pre post _ h2 h
    cases pre with
    | nil =>
      simp only [List.nil_append, List.cons.injEq, true_and] at h
      exact ⟨rfl, h.symm⟩
    | cons a t =>
      simp only [List.nil_append, List.cons_append, List.cons.injEq] at h
      exfalso
      apply h2
      rw [h.2]
      simp
  | cons b l1 ih =>
    intro l2 pre post h1 h2 h
    cases pre with
    | nil =>
      simp only [List.nil_append, List.cons_append, List.cons.injEq] at h
      exfalso
      apply h1
      rw [h.1]
      simp
    | cons a t =>
      simp only [List.cons_append, List.cons.injEq] at h
      have h1t : x ∉ l1 := fun hx => h1 (List.mem_cons_of_mem b hx)
      obtain ⟨e1, e2⟩ := ih l2 t post h1t h2 h.2
      exact ⟨by rw [h.1, e1], e2⟩

/-! ## Lemmas on the console loop -/

theorem sleep_event_isLoop (b : Build) :
    (sleep_event b : Event G).isLoop = true ∧
      (sleep_event b : Event G) ≠ .read_exiting true := by
  unfold sleep_event
  split <;> simp [Event.isLoop]

theorem idle_events_spec (b : Build) (n : Nat) :
    ∀ e ∈ (idle_events b n : List (Event G)),
      e.isLoop = true ∧ e ≠ .read_exiting true := by
  induction n with
  | zero => simp [idle_events]
  | succ n ih =>
    intro e he
    simp only [idle_events, List.mem_cons] at he
    rcases he with he | he | he
    · subst he; simp [Event.isLoop]
    · subst he; exact sleep_event_isLoop b
    · exact ih e he

/-- A loop that returns has run some n idle iterations and then seen the
flag set, at its poll number i + n, the first poll that does. -/
theorem console_loop_shape (b : Build) (ex : Nat → Bool) :
    ∀ (fuel i : Nat) (t : List (Event G)), console_loop b ex fuel i = some t →
      ∃ n, t = idle_events b n ++ [.read_exiting true] ∧ n < fuel ∧
        ex (i + n) = true ∧ ∀ j, j < n → ex (i + j) = false := by
  intro fuel
  induction fuel with
  | zero => intro i t h; simp [console_loop] at h
  | succ fuel ih =>
    intro i t h
    by_cases hx : ex i = true
    · simp only [console_loop, hx, if_true, Option.some.injEq] at h
      exact ⟨0, by simp [idle_events, h.symm], Nat.succ_pos _, by simpa using hx,
        fun j hj => absurd hj (Nat.not_lt_zero j)⟩
    · have hf : ex i = false := by simpa using hx
      rw [console_loop, hf] at h
      cases hc : console_loop (G := G) b ex fuel (i + 1) with
      | none => rw [hc] at h; simp at h
      | some t1 =>
      rw [hc] at h
      simp only [Bool.false_eq_true, if_false, Option.map_some', Option.some.injEq] at h
      subst h
      obtain ⟨n, rfl, hn, hset, hclear⟩ := ih (i + 1) t1 hc
      refine ⟨n + 1, by simp [idle_events], Nat.succ_lt_succ hn, ?_, ?_⟩
      · rw [← hset]; congr 1; omega
      · intro j hj
        cases j with
        | zero => simpa using hx
        | succ j =>
          have := hclear j (by omega)
          rw [← this]; congr 1; omega

/-- A flag that is seen set by some poll ends the loop, given enough fuel. -/
theorem console_loop_terminates (b : Build) (ex : Nat → Bool) :
    ∀ (k i : Nat), ex (i + k) = true →
      ∃ t : List (Event G), console_loop b ex (k + 1) i = some t := by
  intro k
  induction k with
  | zero =>
    intro i h
    exact ⟨[.read_exiting true], by simp [console_loop, show ex i = true by simpa using h]⟩
  | succ k ih =>
    intro i h
    by_cases hx : ex i = true
    · exact ⟨[.read_exiting true], by simp [console_loop, hx]⟩
    · obtain ⟨t, ht⟩ := ih (i + 1) (by rw [← h]; congr 1; omega)
      exact ⟨.read_exiting false :: sleep_event b :: t, by
        rw [console_loop]; simp [hx, ht]⟩

theorem sig_register_events_spec (b : Build) :
    ∀ e ∈ (sig_register_events b : List (Event G)),
      e.isLoop = true ∧ e ≠ .read_exiting true := by
  unfold sig_register_events
  split <;> simp [Event.isLoop]

/-- The result of _do_console, when there is one. -/
theorem do_console_shape (b : Build) (env : Env R G) (fuel : Nat) (r : Int × List (Event G))
    (h : _do_console b env fuel = some r) :
    r.1 = RET_FUN_SUCCESS ∧ ∃ l : List (Event G), r.2 = l ++ [.read_exiting true] ∧
      ∀ e ∈ l, e.isLoop = true ∧ e ≠ .read_exiting true := by
  simp only [_do_console, Option.map_eq_some'] at h
  obtain ⟨t, ht, rfl⟩ := h
  obtain ⟨n, rfl, -, -, -⟩ := console_loop_shape b env.exiting fuel 0 t ht
  refine ⟨rfl, sig_register_events b ++ idle_events b n, by simp, ?_⟩
  intro e he
  rcases List.mem_append.1 he with he | he
  · exact sig_register_events_spec b e he
  · exact idle_events_spec b n e he

theorem do_console_terminates (b : Build) (env : Env R G) (k : Nat)
    (h : env.exiting k = true) :
    ∃ r : Int × List (Event G), _do_console b env (k + 1) = some r := by
  obtain ⟨t, ht⟩ := console_loop_terminates (G := G) b env.exiting k 0 (by simpa using h)
  exact ⟨(RET_FUN_SUCCESS, sig_register_events b ++ t), by simp [_do_console, ht]⟩

/-- An event of the loop is no backend call and no clock read. -/
theorem isLoop_excludes (e : Event G) (h : e.isLoop = true) :
    e.isInit = false ∧ e.isGet = false ∧ e.isSet = false ∧ e.isFree = false ∧
      e.isTime = false := by
  cases e <;> simp_all [Event.isInit, Event.isGet, Event.isSet,
    Event.isFree, Event.isTime, Event.isLoop]

/-! ## Lemmas on main -/

theorem startup_events_spec (api : OptionsApi R G σ) (env : Env R G) (s0 : σ) :
    ∀ e ∈ startup_events api env s0,
      e.isGet = false ∧ e.isSet = false ∧ e.isFree = false ∧
        e.isTime = false ∧ e.isLoop = false := by
  intro e he
  simp only [startup_events, List.mem_cons, List.mem_append, List.mem_singleton,
    List.cons_append] at he
  rcases he with he | he | he | he
  · subst he; simp [Event.isGet, Event.isSet, Event.isFree, Event.isTime, Event.isLoop]
  · have := isParse_excludes e (parse_events_isParse api env s0 e he)
    tauto
  · subst he; simp [Event.isGet, Event.isSet, Event.isFree, Event.isTime, Event.isLoop]
  · exact absurd he (List.not_mem_nil e)

/-- Past a successful start, main is the selected mode followed by the
release of the backend and of the parser and logger (lines 241-271). -/
theorem main_session (b : Build) (api : OptionsApi R G σ) (env : Env R G) (s0 : σ)
    (fuel : Nat) (hlog : env.log_init_ok = true)
    (hparse : (_parse_options api env s0).1 ≠ 0) (hinit : init_handle api env s0 ≠ 0) :
    main b api env s0 fuel =
      (run_mode b api env (session_opts api env s0) fuel).map (fun r =>
        (if r.1 ≠ 0 then RET_MAIN_OK else RET_MAIN_ERR,
         startup_events api env s0 ++ r.2 ++
           [.gamma_state_free (api.opt_get_method (session_opts api env s0)),
            .args_free, .log_end])) := by
  have hinit2 := hinit
  simp only [init_handle] at hinit2
  simp only [main, hlog, hparse, hinit2, session_opts, init_handle, startup_events]
  simp

/-! ## Lemmas on _do_oneshot -/

/-- The result of _do_oneshot when the clock read succeeds. -/
theorem do_oneshot_ok (api : OptionsApi R G σ) (env : Env R G) (s : σ)
    (htime : env.systemtime_get_time.1 = 0) :
    _do_oneshot api env s =
      (if env.gamma_state_set_temperature (api.opt_get_method s) (oneshot_temp api env s)
          (api.opt_get_gamma s) = 0 then RET_FUN_FAILED else RET_FUN_SUCCESS,
       [.systemtime_get_time 0, .LOG LOGINFO "Solar elevation: %f",
        .LOG LOGINFO "Color temperature: %uK",
        .gamma_state_get_temperature (api.opt_get_method s)
          (env.gamma_state_get_temperature (api.opt_get_method s))] ++
       .gamma_state_set_temperature (api.opt_get_method s) (oneshot_temp api env s)
          (api.opt_get_gamma s)
          (env.gamma_state_set_temperature (api.opt_get_method s) (oneshot_temp api env s)
            (api.opt_get_gamma s)) ::
       (if env.gamma_state_set_temperature (api.opt_get_method s) (oneshot_temp api env s)
          (api.opt_get_gamma s) = 0
        then [.LOG LOGERR "Temperature adjustment failed."] else [])) := by
  simp only [_do_oneshot, htime]
  split_ifs <;> simp_all

/-- The result of _do_oneshot when the clock read fails. -/
theorem do_oneshot_fail (api : OptionsApi R G σ) (env : Env R G) (s : σ)
    (htime : env.systemtime_get_time.1 ≠ 0) :
    _do_oneshot api env s =
      (RET_FUN_FAILED, [.systemtime_get_time env.systemtime_get_time.1,
        .LOG LOGERR "Unable to read system time."]) := by
  simp only [_do_oneshot]
  rw [if_pos htime]

/-- No event of _do_oneshot belongs to the console loop. -/
theorem do_oneshot_no_loop (api : OptionsApi R G σ) (env : Env R G) (s : σ) :
    ∀ e ∈ (_do_oneshot api env s).2, e.isLoop = false ∧ e.isFree = false ∧ e.isInit = false := by
  by_cases htime : env.systemtime_get_time.1 = 0
  · rw [do_oneshot_ok api env s htime]
    intro e he
    simp only [List.cons_append, List.nil_append, List.mem_cons] at he
    rcases he with he | he | he | he | he | he
    · subst he; simp [Event.isLoop, Event.isFree, Event.isInit]
    · subst he; simp [Event.isLoop, Event.isFree, Event.isInit]
    · subst he; simp [Event.isLoop, Event.isFree, Event.isInit]
    · subst he; simp [Event.isLoop, Event.isFree, Event.isInit]
    · subst he; simp [Event.isLoop, Event.isFree, Event.isInit]
    · split_ifs at he
      · simp only [List.mem_singleton] at he
        subst he; simp [Event.isLoop, Event.isFree, Event.isInit]
      · exact absurd he (List.not_mem_nil e)
  · rw [do_oneshot_fail api env s htime]
    intro e he
    simp only [List.mem_cons, List.mem_singleton, List.not_mem_nil, or_false] at he
    rcases he with he | he <;> subst he <;> simp [Event.isLoop, Event.isFree, Event.isInit]

/-! ## One-shot mode -/

/-- C1: when the clock read succeeds, the events of _do_oneshot hold exactly
one gamma_state_set_temperature call; no event before it is a set call, no
event at all belongs to a loop, and whatever the call returns only a log
message can follow it before the function returns, with a status that is
success exactly when the call reported success. -/
theorem oneshot_exactly_one_set_call (api : OptionsApi R G σ) (env : Env R G) (s : σ)
    (htime : env.systemtime_get_time.1 = 0) :
    ((_do_oneshot api env s).2.filter Event.isSet).length = 1 ∧
    (∀ e ∈ (_do_oneshot api env s).2, e.isLoop = false) ∧
    ∃ pre post ret,
      (_do_oneshot api env s).2 = pre ++
        .gamma_state_set_temperature (api.opt_get_method s) (oneshot_temp api env s)
          (api.opt_get_gamma s) ret :: post ∧
      (∀ e ∈ pre, e.isSet = false) ∧ (∀ e ∈ post, e.isLog = true) ∧ post.length ≤ 1 ∧
      ((_do_oneshot api env s).1 = RET_FUN_SUCCESS ↔ ret ≠ 0) := by
  refine ⟨?_, fun e he => (do_oneshot_no_loop api env s e he).1, ?_⟩
  · rw [do_oneshot_ok api env s htime]
    split_ifs <;> simp [List.filter, Event.isSet]
  · rw [do_oneshot_ok api env s htime]
    refine ⟨_, _, _, rfl, ?_, ?_, ?_, ?_⟩
    · simp [Event.isSet]
    · split_ifs <;> simp [Event.isLog]
    · split_ifs <;> simp
    · split_ifs with h <;> simp [h, RET_FUN_FAILED, RET_FUN_SUCCESS]

/-- Witness for C1 on the sample one-shot run. -/
theorem oneshot_exactly_one_set_call_witness :
    oneshotEnv.systemtime_get_time.1 = 0 ∧
    ((_do_oneshot sampleApi oneshotEnv (session_opts sampleApi oneshotEnv sampleOpts)).2.filter
      Event.isSet).length = 1 :=
  ⟨by decide, (oneshot_exactly_one_set_call sampleApi oneshotEnv
    (session_opts sampleApi oneshotEnv sampleOpts) (by decide)).1⟩

/-- C2: when the clock read succeeds, the one gamma_state_set_temperature
call of _do_oneshot gets the configured method as handle, the Kelvin
gamma_calc_temp(solar_elevation(now, lat, lon), day, night) and the
configured gamma; hence any second run that agrees on the clock value, on
the two functions and on these six option values passes the same
arguments, whatever else differs in the options state (the transition
speed among it) and whatever gamma_state_get_temperature returns. -/
theorem oneshot_applies_computed_target (api : OptionsApi R G σ) (env : Env R G) (s : σ)
    (htime : env.systemtime_get_time.1 = 0) :
    (_do_oneshot api env s).2.filterMap Event.setArgs =
      [(api.opt_get_method s,
        env.gamma_calc_temp
          (env.solar_elevation env.systemtime_get_time.2 (api.opt_get_lat s) (api.opt_get_lon s))
          (api.opt_get_temp_day s) (api.opt_get_temp_night s),
        api.opt_get_gamma s)] ∧
    ∀ (τ : Type) (api2 : OptionsApi R G τ) (env2 : Env R G) (s2 : τ),
      env2.systemtime_get_time.1 = 0 →
      env2.systemtime_get_time.2 = env.systemtime_get_time.2 →
      env2.solar_elevation = env.solar_elevation →
      env2.gamma_calc_temp = env.gamma_calc_temp →
      api2.opt_get_method s2 = api.opt_get_method s →
      api2.opt_get_lat s2 = api.opt_get_lat s →
      api2.opt_get_lon s2 = api.opt_get_lon s →
      api2.opt_get_temp_day s2 = api.opt_get_temp_day s →
      api2.opt_get_temp_night s2 = api.opt_get_temp_night s →
      api2.opt_get_gamma s2 = api.opt_get_gamma s →
      (_do_oneshot api2 env2 s2).2.filterMap Event.setArgs =
        (_do_oneshot api env s).2.filterMap Event.setArgs := by
  have key : ∀ (τ : Type) (api2 : OptionsApi R G τ) (env2 : Env R G) (s2 : τ),
      env2.systemtime_get_time.1 = 0 →
      (_do_oneshot api2 env2 s2).2.filterMap Event.setArgs =
        [(api2.opt_get_method s2, oneshot_temp api2 env2 s2, api2.opt_get_gamma s2)] := by
    intro τ api2 env2 s2 h2
    rw [do_oneshot_ok api2 env2 s2 h2]
    split_ifs <;> simp [List.filterMap, Event.setArgs]
  refine ⟨key σ api env s htime, ?_⟩
  intro τ api2 env2 s2 h2 hnow hsol hcalc hm hlat hlon hday hnight hgam
  rw [key τ api2 env2 s2 h2, key σ api env s htime]
  simp only [oneshot_temp, hnow, hsol, hcalc, hm, hlat, hlon, hday, hnight, hgam]

/-- Witness for C2 on the sample one-shot run: handle 2, 6500 K, gamma 1. -/
theorem oneshot_applies_computed_target_witness :
    oneshotEnv.systemtime_get_time.1 = 0 ∧
    (_do_oneshot sampleApi oneshotEnv
      (session_opts sampleApi oneshotEnv sampleOpts)).2.filterMap Event.setArgs =
        [(2, 6500, 1)] :=
  ⟨by decide, (oneshot_applies_computed_target sampleApi oneshotEnv
    (session_opts sampleApi oneshotEnv sampleOpts) (by decide)).1⟩

/-- C9: replacing the answer of gamma_state_get_temperature by any other
leaves the status of _do_oneshot, the arguments of its
gamma_state_set_temperature call and every event other than the read-back
itself unchanged. -/
theorem oneshot_ignores_readback (api : OptionsApi R G σ) (env : Env R G) (s : σ)
    (g : gamma_method_t → Int) :
    (_do_oneshot api { env with gamma_state_get_temperature := g } s).1 =
      (_do_oneshot api env s).1 ∧
    (_do_oneshot api { env with gamma_state_get_temperature := g } s).2.filterMap
        Event.setArgs = (_do_oneshot api env s).2.filterMap Event.setArgs ∧
    (_do_oneshot api { env with gamma_state_get_temperature := g } s).2.filter
        (fun e => !e.isGet) = (_do_oneshot api env s).2.filter (fun e => !e.isGet) := by
  by_cases htime : env.systemtime_get_time.1 = 0
  · rw [do_oneshot_ok api env s htime,
      do_oneshot_ok api { env with gamma_state_get_temperature := g } s htime]
    simp [oneshot_temp, List.filter, List.filterMap, Event.setArgs, Event.isGet]
  · rw [do_oneshot_fail api env s htime,
      do_oneshot_fail api { env with gamma_state_get_temperature := g } s htime]
    exact ⟨rfl, rfl, rfl⟩

/-! ## Lemmas on the mode selection -/

theorem run_mode_oneshot (b : Build) (api : OptionsApi R G σ) (env : Env R G) (s : σ)
    (fuel : Nat) (h : api.opt_get_oneshot s ≠ 0) :
    run_mode b api env s fuel =
      some ((_do_oneshot api env s).1,
        .LOG LOGINFO "Doing one-shot adjustment." :: (_do_oneshot api env s).2) := by
  simp only [run_mode]
  rw [if_pos h]

theorem run_mode_console (b : Build) (api : OptionsApi R G σ) (env : Env R G) (s : σ)
    (fuel : Nat) (h1 : api.opt_get_oneshot s = 0) (h2 : api.opt_get_nogui s ≠ 0) :
    run_mode b api env s fuel =
      (_do_console b env fuel).map
        (fun r => (r.1, .LOG LOGINFO "Starting in console mode." :: r.2)) := by
  simp only [run_mode]
  rw [if_neg (by simpa using h1), if_pos h2]

theorem run_mode_gui (b : Build) (api : OptionsApi R G σ) (env : Env R G) (s : σ)
    (fuel : Nat) (h1 : api.opt_get_oneshot s = 0) (h2 : api.opt_get_nogui s = 0) :
    run_mode b api env s fuel =
      if b.gui_toolkit = true then
        some (env.ret_indeterminate, [.LOG LOGINFO "Starting in GUI mode."])
      else
        some (RET_FUN_FAILED, [.LOG LOGINFO "Starting in GUI mode.",
          .LOG LOGERROR "No GUI toolkit compiled in."]) := by
  simp only [run_mode]
  rw [if_neg (by simpa using h1), if_neg (by simpa using h2)]

/-- No mode initialises or releases the backend. -/
theorem run_mode_events (b : Build) (api : OptionsApi R G σ) (env : Env R G) (s : σ)
    (fuel : Nat) (r : Int × List (Event G)) (h : run_mode b api env s fuel = some r) :
    ∀ e ∈ r.2, e.isFree = false ∧ e.isInit = false := by
  by_cases h1 : api.opt_get_oneshot s = 0
  · by_cases h2 : api.opt_get_nogui s = 0
    · rw [run_mode_gui b api env s fuel h1 h2] at h
      split_ifs at h
      all_goals
        simp only [Option.some.injEq] at h
        subst h
        simp [Event.isFree, Event.isInit]
    · rw [run_mode_console b api env s fuel h1 h2] at h
      simp only [Option.map_eq_some'] at h
      obtain ⟨r1, hr1, rfl⟩ := h
      obtain ⟨-, l, hl, hall⟩ := do_console_shape b env fuel r1 hr1
      intro e he
      simp only [hl, List.mem_cons, List.mem_append, List.not_mem_nil, or_false] at he
      rcases he with he | he | he
      · subst he; simp [Event.isFree, Event.isInit]
      · have := isLoop_excludes e (hall e he).1
        exact ⟨this.2.2.2.1, this.1⟩
      · subst he; simp [Event.isFree, Event.isInit]
  · rw [run_mode_oneshot b api env s fuel h1] at h
    simp only [Option.some.injEq] at h
    subst h
    intro e he
    simp only [List.mem_cons] at he
    rcases he with he | he
    · subst he; simp [Event.isFree, Event.isInit]
    · exact (do_oneshot_no_loop api env s e he).2

/-- Every mode returns, the console mode once the flag is seen set. -/
theorem run_mode_terminates (b : Build) (api : OptionsApi R G σ) (env : Env R G) (s : σ)
    (h : api.opt_get_oneshot s ≠ 0 ∨ api.opt_get_nogui s = 0 ∨ ∃ k, env.exiting k = true) :
    ∃ fuel r, run_mode b api env s fuel = some r := by
  by_cases h1 : api.opt_get_oneshot s = 0
  · by_cases h2 : api.opt_get_nogui s = 0
    · refine ⟨0, ?_⟩
      rw [run_mode_gui b api env s 0 h1 h2]
      split_ifs
      · exact ⟨_, rfl⟩
      · exact ⟨_, rfl⟩
    · rcases h with h | h | ⟨k, hk⟩
      · exact absurd h1 h
      · exact absurd h h2
      · obtain ⟨r, hr⟩ := do_console_terminates (R := R) (G := G) b env k hk
        refine ⟨k + 1, (r.1, .LOG LOGINFO "Starting in console mode." :: r.2), ?_⟩
        rw [run_mode_console b api env s (k + 1) h1 h2, hr]
        rfl
  · exact ⟨0, _, run_mode_oneshot b api env s 0 h1⟩

/-- The run of main when the backend is unavailable (lines 236-240). -/
theorem main_no_backend (b : Build) (api : OptionsApi R G σ) (env : Env R G) (s0 : σ)
    (fuel : Nat) (hlog : env.log_init_ok = true)
    (hparse : (_parse_options api env s0).1 ≠ 0) (hinit : init_handle api env s0 = 0) :
    main b api env s0 fuel =
      some (RET_MAIN_ERR, startup_events api env s0 ++ [.args_free, .log_end]) := by
  have hinit2 := hinit
  simp only [init_handle] at hinit2
  simp only [main, hlog, hparse, hinit2, init_handle, startup_events]
  simp

/-- The run of main when the option parsing fails (lines 224-233). -/
theorem main_parse_failed (b : Build) (api : OptionsApi R G σ) (env : Env R G) (s0 : σ)
    (fuel : Nat) (hparse : (_parse_options api env s0).1 = 0) :
    main b api env s0 fuel =
      if env.log_init_ok = true then
        some (RET_MAIN_ERR,
          .log_init true :: (_parse_options api env s0).2.2 ++ [.args_free, .log_end])
      else
        some (RET_MAIN_ERR, [.log_init false, .printf "Could not initialize logger.\n"]) := by
  simp only [main, hparse]
  cases env.log_init_ok <;> simp

/-- A successful _parse_options has seen none of the failure conditions. -/
theorem parse_options_success (api : OptionsApi R G σ) (env : Env R G) (s0 : σ)
    (h : (_parse_options api env s0).1 ≠ 0) :
    env.args_parse_ok = true ∧ env.args_check "h" = false ∧ env.args_unknown = false ∧
      ¬ ∃ n, Event.opt_call n 0 ∈ (_parse_options api env s0).2.2 := by
  have herr := apply_options_err api env
    { opts := api.opt_set_defaults s0, err := 0, trace := addarg_events ++ config_events env }
    (fun ⟨n, hn⟩ => absurd hn (no_opt_call_before_setters env n 0))
  revert h
  simp only [_parse_options]
  split_ifs with h1 h2 h3 h4
  · intro h; exact absurd rfl h
  · intro h; exact absurd rfl h
  · intro h; exact absurd rfl h
  · intro h; exact absurd rfl h
  · intro _
    refine ⟨by simpa using h1, by simpa using h2, by simpa using h4, ?_⟩
    intro hex
    exact herr hex (by simpa using h3)

theorem startup_events_filter_isInit (api : OptionsApi R G σ) (env : Env R G) (s0 : σ) :
    ((startup_events api env s0).filter Event.isInit).length = 1 := by
  have hp : (_parse_options api env s0).2.2.filter Event.isInit = [] :=
    filter_nil_of_all_false _ _
      (fun e he => (isParse_excludes e (parse_events_isParse api env s0 e he)).1)
  simp [startup_events, List.filter_append, hp, List.filter, Event.isInit]

theorem startup_events_filter_isFree (api : OptionsApi R G σ) (env : Env R G) (s0 : σ) :
    (startup_events api env s0).filter Event.isFree = [] :=
  filter_nil_of_all_false _ _ (fun e he => (startup_events_spec api env s0 e he).2.2.1)

/-! ## Backend unavailable, options rejected -/

/-- C7: when the logger and the option parsing succeed and gamma_init_method
returns the zero handle, main returns RET_MAIN_ERR (for every fuel, so it
does return); its events hold exactly one gamma_init_method call, and no
gamma_state_get_temperature, gamma_state_set_temperature or gamma_state_free
call, no clock read (the first act of _do_oneshot) and no event of the
console loop (the flag poll that _do_console always makes). -/
theorem backend_unavailable_is_fatal (b : Build) (api : OptionsApi R G σ) (env : Env R G)
    (s0 : σ) (hlog : env.log_init_ok = true)
    (hparse : (_parse_options api env s0).1 ≠ 0) (hinit : init_handle api env s0 = 0) :
    ∀ fuel, ∃ t, main b api env s0 fuel = some (RET_MAIN_ERR, t) ∧
      (t.filter Event.isInit).length = 1 ∧
      ∀ e ∈ t, e.isGet = false ∧ e.isSet = false ∧ e.isFree = false ∧
        e.isTime = false ∧ e.isLoop = false := by
  intro fuel
  refine ⟨_, main_no_backend b api env s0 fuel hlog hparse hinit, ?_, ?_⟩
  · rw [List.filter_append, List.length_append, startup_events_filter_isInit]
    simp [List.filter, Event.isInit]
  · intro e he
    rcases List.mem_append.1 he with he | he
    · exact startup_events_spec api env s0 e he
    · simp only [List.mem_cons, List.mem_singleton, List.not_mem_nil, or_false] at he
      rcases he with he | he <;> subst he <;>
        simp [Event.isGet, Event.isSet, Event.isFree, Event.isTime, Event.isLoop]

/-- Witness for C7 on the sample run without a backend. -/
theorem backend_unavailable_is_fatal_witness :
    (noBackendEnv.log_init_ok = true ∧
      (_parse_options sampleApi noBackendEnv sampleOpts).1 ≠ 0 ∧
      init_handle sampleApi noBackendEnv sampleOpts = 0) ∧
    ∃ t, main sampleBuild sampleApi noBackendEnv sampleOpts 0 = some (RET_MAIN_ERR, t) ∧
      (t.filter Event.isInit).length = 1 ∧
      ∀ e ∈ t, e.isGet = false ∧ e.isSet = false ∧ e.isFree = false ∧
        e.isTime = false ∧ e.isLoop = false :=
  ⟨⟨by decide, by decide, by decide⟩,
    backend_unavailable_is_fatal sampleBuild sampleApi noBackendEnv sampleOpts
      (by decide) (by decide) (by decide) 0⟩

/-- C8: if args_parse fails, or help is requested, or some option setter
is called and returns 0 (whatever the setters called after it return), or
an unknown argument is present, then _parse_options returns RET_FUN_FAILED
and main returns RET_MAIN_ERR (for every fuel) with no backend operation,
no clock read and no loop event among its events. -/
theorem options_validated_before_core (b : Build) (api : OptionsApi R G σ) (env : Env R G)
    (s0 : σ)
    (h : env.args_parse_ok = false ∨ env.args_check "h" = true ∨
      (∃ n, Event.opt_call n 0 ∈ (_parse_options api env s0).2.2) ∨
      env.args_unknown = true) :
    (_parse_options api env s0).1 = RET_FUN_FAILED ∧
    ∀ fuel, ∃ t, main b api env s0 fuel = some (RET_MAIN_ERR, t) ∧
      ∀ e ∈ t, e.isBackend = false ∧ e.isTime = false ∧ e.isLoop = false := by
  have hfail : (_parse_options api env s0).1 = 0 := by
    by_contra hne
    obtain ⟨h1, h2, h3, h4⟩ := parse_options_success api env s0 hne
    rcases h with h | h | h | h
    · rw [h1] at h; exact Bool.noConfusion h
    · rw [h2] at h; exact Bool.noConfusion h
    · exact h4 h
    · rw [h3] at h; exact Bool.noConfusion h
  refine ⟨hfail, ?_⟩
  intro fuel
  rw [main_parse_failed b api env s0 fuel hfail]
  split_ifs
  · refine ⟨_, rfl, ?_⟩
    intro e he
    simp only [List.cons_append, List.mem_cons, List.mem_append, List.not_mem_nil,
      or_false] at he
    rcases he with he | he | he | he
    · subst he; simp [Event.isBackend, Event.isInit, Event.isGet, Event.isSet,
        Event.isFree, Event.isTime, Event.isLoop]
    · have := isParse_excludes e (parse_events_isParse api env s0 e he)
      simp [Event.isBackend, this]
    · subst he; simp [Event.isBackend, Event.isInit, Event.isGet, Event.isSet,
        Event.isFree, Event.isTime, Event.isLoop]
    · subst he; simp [Event.isBackend, Event.isInit, Event.isGet, Event.isSet,
        Event.isFree, Event.isTime, Event.isLoop]
  · refine ⟨_, rfl, ?_⟩
    intro e he
    simp only [List.mem_cons, List.not_mem_nil, or_false] at he
    rcases he with he | he <;> subst he <;>
      simp [Event.isBackend, Event.isInit, Event.isGet, Event.isSet,
        Event.isFree, Event.isTime, Event.isLoop]

/-- Witness for C8 on the sample run `-c -1 -v 7 -o`: the crtc setter
returns 0, the setters for `o` and `v` run after it and return 1, and the
parse still fails. -/
theorem options_validated_before_core_witness :
    (Event.opt_call "c" 0 ∈ (_parse_options sampleApi rejectEnv sampleOpts).2.2 ∧
      Event.opt_call "v" 1 ∈ (_parse_options sampleApi rejectEnv sampleOpts).2.2) ∧
    (_parse_options sampleApi rejectEnv sampleOpts).1 = RET_FUN_FAILED ∧
    ∀ fuel, ∃ t, main sampleBuild sampleApi rejectEnv sampleOpts fuel = some (RET_MAIN_ERR, t) ∧
      ∀ e ∈ t, e.isBackend = false ∧ e.isTime = false ∧ e.isLoop = false :=
  ⟨⟨by decide, by decide⟩,
    options_validated_before_core sampleBuild sampleApi rejectEnv sampleOpts
      (Or.inr (Or.inr (Or.inl ⟨"c", by decide⟩)))⟩

/-! ## Release of the backend, cancellation, exit status -/

/-- C4: when gamma_init_method returned a non-zero handle (and the options
module returns from opt_get_method what opt_set_method stored), every run
of main that returns ends with gamma_state_free on that handle, then
args_free and log_end; no event before it is a gamma_state_free call, so
the call is made exactly once and after every other backend operation,
whatever the selected mode returned.  The run does return in one-shot and
GUI mode, and in console mode once the exiting flag is seen set. -/
theorem release_on_every_exit (b : Build) (api : OptionsApi R G σ) (env : Env R G)
    (s0 : σ) (hstore : ∀ m s, api.opt_get_method (api.opt_set_method m s) = m)
    (hlog : env.log_init_ok = true)
    (hparse : (_parse_options api env s0).1 ≠ 0) (hinit : init_handle api env s0 ≠ 0) :
    ((api.opt_get_oneshot (session_opts api env s0) ≠ 0 ∨
        api.opt_get_nogui (session_opts api env s0) = 0 ∨ ∃ k, env.exiting k = true) →
      ∃ fuel r, main b api env s0 fuel = some r) ∧
    ∀ fuel r, main b api env s0 fuel = some r →
      (r.2.filter Event.isFree).length = 1 ∧
      ∃ pre, r.2 = pre ++ [.gamma_state_free (init_handle api env s0), .args_free, .log_end] ∧
        ∀ e ∈ pre, e.isFree = false := by
  have hm : api.opt_get_method (session_opts api env s0) = init_handle api env s0 := by
    simp only [session_opts]
    exact hstore _ _
  constructor
  · intro hterm
    obtain ⟨fuel, r, hr⟩ := run_mode_terminates b api env (session_opts api env s0) hterm
    refine ⟨fuel, ?_⟩
    rw [main_session b api env s0 fuel hlog hparse hinit, hr]
    exact ⟨_, rfl⟩
  · intro fuel r hr
    rw [main_session b api env s0 fuel hlog hparse hinit, Option.map_eq_some'] at hr
    obtain ⟨r1, hr1, rfl⟩ := hr
    have hpre : ∀ e ∈ startup_events api env s0 ++ r1.2, e.isFree = false := by
      intro e he
      rcases List.mem_append.1 he with he | he
      · exact (startup_events_spec api env s0 e he).2.2.1
      · exact (run_mode_events b api env _ fuel r1 hr1 e he).1
    refine ⟨?_, startup_events api env s0 ++ r1.2, by rw [hm], hpre⟩
    rw [List.filter_append, filter_nil_of_all_false _ _ hpre]
    simp [List.filter, Event.isFree]

/-- Witness for C4 on the sample console run, which sees the flag set at
its third poll: it returns, and releases handle 2 once, at the end. -/
theorem release_on_every_exit_witness :
    ((∀ m s, sampleApi.opt_get_method (sampleApi.opt_set_method m s) = m) ∧
      consoleEnv.log_init_ok = true ∧
      (_parse_options sampleApi consoleEnv sampleOpts).1 ≠ 0 ∧
      init_handle sampleApi consoleEnv sampleOpts ≠ 0 ∧
      consoleEnv.exiting 2 = true) ∧
    ∃ fuel r, main sampleBuild sampleApi consoleEnv sampleOpts fuel = some r ∧
      (r.2.filter Event.isFree).length = 1 ∧
      ∃ pre, r.2 = pre ++ [.gamma_state_free 2, .args_free, .log_end] ∧
        ∀ e ∈ pre, e.isFree = false :=
  ⟨⟨fun _ _ => rfl, by decide, by decide, by decide, by decide⟩,
    have h := release_on_every_exit sampleBuild sampleApi consoleEnv sampleOpts
      (fun _ _ => rfl) (by decide) (by decide) (by decide)
    (h.1 (Or.inr (Or.inr ⟨2, by decide⟩))).elim fun fuel hr =>
      hr.elim fun r hr => ⟨fuel, r, hr, h.2 fuel r hr⟩⟩

/-- C3: in a run of main in console mode, once the exiting flag is seen set
the run returns; every returned run holds the poll that saw the flag set,
and the events after that poll are exactly gamma_state_free, args_free and
log_end: no gamma_state_set_temperature call, no further poll or sleep,
and gamma_state_free exactly once in the whole run. -/
theorem cancel_stops_loop_and_releases (b : Build) (api : OptionsApi R G σ) (env : Env R G)
    (s0 : σ) (hlog : env.log_init_ok = true)
    (hparse : (_parse_options api env s0).1 ≠ 0) (hinit : init_handle api env s0 ≠ 0)
    (hone : api.opt_get_oneshot (session_opts api env s0) = 0)
    (hcon : api.opt_get_nogui (session_opts api env s0) ≠ 0) :
    ((∃ k, env.exiting k = true) → ∃ fuel r, main b api env s0 fuel = some r) ∧
    ∀ fuel r, main b api env s0 fuel = some r →
      Event.read_exiting true ∈ r.2 ∧
      (r.2.filter Event.isFree).length = 1 ∧
      ∀ pre post, r.2 = pre ++ Event.read_exiting true :: post →
        post = [.gamma_state_free (api.opt_get_method (session_opts api env s0)),
          .args_free, .log_end] ∧
        (∀ e ∈ post, e.isSet = false ∧ e.isLoop = false) ∧
        (post.filter Event.isFree).length = 1 := by
  constructor
  · intro hterm
    obtain ⟨fuel, r, hr⟩ := run_mode_terminates b api env (session_opts api env s0)
      (Or.inr (Or.inr hterm))
    refine ⟨fuel, ?_⟩
    rw [main_session b api env s0 fuel hlog hparse hinit, hr]
    exact ⟨_, rfl⟩
  · intro fuel r hr
    rw [main_session b api env s0 fuel hlog hparse hinit, Option.map_eq_some'] at hr
    obtain ⟨r1, hr1, rfl⟩ := hr
    have hfree : ∀ e ∈ startup_events api env s0 ++ r1.2, e.isFree = false := by
      intro e he
      rcases List.mem_append.1 he with he | he
      · exact (startup_events_spec api env s0 e he).2.2.1
      · exact (run_mode_events b api env _ fuel r1 hr1 e he).1
    rw [run_mode_console b api env _ fuel hone hcon, Option.map_eq_some'] at hr1
    obtain ⟨r2, hr2, rfl⟩ := hr1
    obtain ⟨-, l, hl, hall⟩ := do_console_shape b env fuel r2 hr2
    have hshape : startup_events api env s0 ++
          (Event.LOG LOGINFO "Starting in console mode." :: r2.2) ++
          [.gamma_state_free (api.opt_get_method (session_opts api env s0)),
            .args_free, .log_end] =
        (startup_events api env s0 ++ Event.LOG LOGINFO "Starting in console mode." :: l) ++
          Event.read_exiting true ::
          [.gamma_state_free (api.opt_get_method (session_opts api env s0)),
            .args_free, .log_end] := by
      rw [hl]; simp
    have hnot1 : Event.read_exiting true ∉
        startup_events api env s0 ++ Event.LOG LOGINFO "Starting in console mode." :: l := by
      intro hmem
      simp only [List.mem_append, List.mem_cons] at hmem
      rcases hmem with hmem | hmem | hmem
      · have := (startup_events_spec api env s0 _ hmem).2.2.2.2
        simp [Event.isLoop] at this
      · exact Event.noConfusion hmem
      · exact (hall _ hmem).2 rfl
    have hnot2 : Event.read_exiting true ∉
        [Event.gamma_state_free (G := G) (api.opt_get_method (session_opts api env s0)),
          .args_free, .log_end] := by
      simp
    refine ⟨?_, ?_, ?_⟩
    · show Event.read_exiting true ∈ _ ++ _ ++ _
      rw [hshape]; simp
    · show (List.filter Event.isFree (_ ++ _ ++ _)).length = 1
      rw [List.filter_append, filter_nil_of_all_false _ _ hfree]
      simp [List.filter, Event.isFree]
    · intro pre post hsplit
      change _ ++ _ ++ _ = _ at hsplit
      rw [hshape] at hsplit
      obtain ⟨-, hpost⟩ := split_unique _ _ _ pre post hnot1 hnot2 hsplit
      subst hpost
      refine ⟨rfl, ?_, by simp [List.filter, Event.isFree]⟩
      intro e he
      simp only [List.mem_cons, List.not_mem_nil, or_false] at he
      rcases he with he | he | he <;> subst he <;> simp [Event.isSet, Event.isLoop]

/-- Witness for C3 on the sample console run, which sees the flag set at
its third poll: it returns, and the release is its only backend call from
that poll on. -/
theorem cancel_stops_loop_and_releases_witness :
    (consoleEnv.log_init_ok = true ∧
      (_parse_options sampleApi consoleEnv sampleOpts).1 ≠ 0 ∧
      init_handle sampleApi consoleEnv sampleOpts ≠ 0 ∧
      sampleApi.opt_get_oneshot (session_opts sampleApi consoleEnv sampleOpts) = 0 ∧
      sampleApi.opt_get_nogui (session_opts sampleApi consoleEnv sampleOpts) ≠ 0 ∧
      consoleEnv.exiting 2 = true) ∧
    ∃ fuel r, main sampleBuild sampleApi consoleEnv sampleOpts fuel = some r ∧
      Event.read_exiting true ∈ r.2 ∧
      (r.2.filter Event.isFree).length = 1 ∧
      ∀ pre post, r.2 = pre ++ Event.read_exiting true :: post →
        post = [.gamma_state_free 2, .args_free, .log_end] ∧
        (∀ e ∈ post, e.isSet = false ∧ e.isLoop = false) ∧
        (post.filter Event.isFree).length = 1 :=
  ⟨⟨by decide, by decide, by decide, by decide, by decide, by decide⟩,
    have h := cancel_stops_loop_and_releases sampleBuild sampleApi consoleEnv sampleOpts
      (by decide) (by decide) (by decide) (by decide) (by decide)
    (h.1 ⟨2, by decide⟩).elim fun fuel hr =>
      hr.elim fun r hr => ⟨fuel, r, hr, h.2 fuel r hr⟩⟩

/-- C10: past a successful start, (a) when the one-shot flag is set main
returns for every fuel, whether or not the no-gui flag is set as well, with
no event of the console loop; its status is RET_MAIN_OK exactly when the
clock read succeeded and gamma_state_set_temperature returned non-zero, and
RET_MAIN_ERR otherwise; when the clock read fails no
gamma_state_get_temperature or gamma_state_set_temperature call is made;
(b) in console mode main returns once the exiting flag is seen set, and
every run that returns has status RET_MAIN_OK. -/
theorem exit_status_reflects_mode (b : Build) (api : OptionsApi R G σ) (env : Env R G)
    (s0 : σ) (hlog : env.log_init_ok = true)
    (hparse : (_parse_options api env s0).1 ≠ 0) (hinit : init_handle api env s0 ≠ 0) :
    (api.opt_get_oneshot (session_opts api env s0) ≠ 0 →
      ∀ fuel, ∃ ret t, main b api env s0 fuel = some (ret, t) ∧
        (ret = RET_MAIN_OK ↔
          (env.systemtime_get_time.1 = 0 ∧
            env.gamma_state_set_temperature (api.opt_get_method (session_opts api env s0))
              (oneshot_temp api env (session_opts api env s0))
              (api.opt_get_gamma (session_opts api env s0)) ≠ 0)) ∧
        (ret ≠ RET_MAIN_OK → ret = RET_MAIN_ERR) ∧
        (∀ e ∈ t, e.isLoop = false) ∧
        (env.systemtime_get_time.1 ≠ 0 → ∀ e ∈ t, e.isGet = false ∧ e.isSet = false)) ∧
    (api.opt_get_oneshot (session_opts api env s0) = 0 →
      api.opt_get_nogui (session_opts api env s0) ≠ 0 →
      ((∃ k, env.exiting k = true) → ∃ fuel r, main b api env s0 fuel = some r) ∧
      ∀ fuel r, main b api env s0 fuel = some r → r.1 = RET_MAIN_OK) := by
  constructor
  · intro hone fuel
    rw [main_session b api env s0 fuel hlog hparse hinit,
      run_mode_oneshot b api env _ fuel hone]
    refine ⟨_, _, rfl, ?_, ?_, ?_, ?_⟩
    · by_cases htime : env.systemtime_get_time.1 = 0
      · rw [do_oneshot_ok api env _ htime]
        by_cases hset : env.gamma_state_set_temperature
            (api.opt_get_method (session_opts api env s0))
            (oneshot_temp api env (session_opts api env s0))
            (api.opt_get_gamma (session_opts api env s0)) = 0
        · simp [hset, htime, RET_FUN_FAILED, RET_MAIN_OK, RET_MAIN_ERR]
        · simp [hset, htime, RET_FUN_SUCCESS, RET_MAIN_OK, RET_MAIN_ERR]
      · rw [do_oneshot_fail api env _ htime]
        simp [htime, RET_FUN_FAILED, RET_MAIN_OK, RET_MAIN_ERR]
    · intro hne
      by_cases hr : (_do_oneshot api env (session_opts api env s0)).1 ≠ 0
      · exact absurd (if_pos hr) hne
      · exact if_neg hr
    · intro e he
      simp only [List.mem_append, List.mem_cons, List.not_mem_nil, or_false] at he
      rcases he with (he | he | he) | he | he | he
      · exact (startup_events_spec api env s0 e he).2.2.2.2
      · subst he; rfl
      · exact (do_oneshot_no_loop api env _ e he).1
      · subst he; rfl
      · subst he; rfl
      · subst he; rfl
    · intro htime e he
      rw [do_oneshot_fail api env _ htime] at he
      simp only [List.mem_append, List.mem_cons, List.not_mem_nil, or_false] at he
      rcases he with (he | he | he | he) | he | he | he
      · have := startup_events_spec api env s0 e he
        exact ⟨this.1, this.2.1⟩
      all_goals subst he; simp [Event.isGet, Event.isSet]
  · intro hone hcon
    constructor
    · intro hterm
      obtain ⟨fuel, r, hr⟩ := run_mode_terminates b api env (session_opts api env s0)
        (Or.inr (Or.inr hterm))
      refine ⟨fuel, ?_⟩
      rw [main_session b api env s0 fuel hlog hparse hinit, hr]
      exact ⟨_, rfl⟩
    · intro fuel r hr
      rw [main_session b api env s0 fuel hlog hparse hinit,
        run_mode_console b api env _ fuel hone hcon, Option.map_map,
        Option.map_eq_some'] at hr
      obtain ⟨r2, hr2, rfl⟩ := hr
      obtain ⟨hret, -⟩ := do_console_shape b env fuel r2 hr2
      simp [hret, RET_FUN_SUCCESS]

/-- Witness for C10 on the sample one-shot run: status RET_MAIN_OK. -/
theorem exit_status_reflects_mode_witness :
    (oneshotEnv.log_init_ok = true ∧
      (_parse_options sampleApi oneshotEnv sampleOpts).1 ≠ 0 ∧
      init_handle sampleApi oneshotEnv sampleOpts ≠ 0 ∧
      sampleApi.opt_get_oneshot (session_opts sampleApi oneshotEnv sampleOpts) ≠ 0) ∧
    ∃ ret t, main sampleBuild sampleApi oneshotEnv sampleOpts 0 = some (ret, t) ∧
      (ret = RET_MAIN_OK ↔
        (oneshotEnv.systemtime_get_time.1 = 0 ∧
          oneshotEnv.gamma_state_set_temperature
            (sampleApi.opt_get_method (session_opts sampleApi oneshotEnv sampleOpts))
            (oneshot_temp sampleApi oneshotEnv (session_opts sampleApi oneshotEnv sampleOpts))
            (sampleApi.opt_get_gamma (session_opts sampleApi oneshotEnv sampleOpts)) ≠ 0)) ∧
      (ret ≠ RET_MAIN_OK → ret = RET_MAIN_ERR) ∧
      (∀ e ∈ t, e.isLoop = false) ∧
      (oneshotEnv.systemtime_get_time.1 ≠ 0 → ∀ e ∈ t, e.isGet = false ∧ e.isSet = false) :=
  ⟨⟨by decide, by decide, by decide, by decide⟩,
    (exit_status_reflects_mode sampleBuild sampleApi oneshotEnv sampleOpts
      (by decide) (by decide) (by decide)).1 (by decide) 0⟩

/-! ## The console loop applies nothing -/

/-- C5, the code on the sample console run: two iterations see the exiting
flag clear, yet the events of _do_console are the signal registration, the
polls and the sleeps alone, and the whole run of main holds no clock read
and no gamma_state_set_temperature call. -/
theorem console_iteration_applies_nothing :
    _do_console sampleBuild consoleEnv 3 =
      some (RET_FUN_SUCCESS,
        [.sig_register, .read_exiting false, .usleep 5000000,
         .read_exiting false, .usleep 5000000, .read_exiting true]) ∧
    (main sampleBuild sampleApi consoleEnv sampleOpts 3).map
      (fun r => r.2.filter (fun e => e.isTime || e.isSet)) = some [] := by
  constructor <;> decide

end Redshift
